import Mathlib

/-!
Verification of the Network-Scanner device inventory and threat detection
engine.  The definitions below are a shallow embedding of the JavaScript
sources:

* `src/services/portMonitoring.js` — service classification, attack
  detection, alert management, whitelist/blacklist registry, scan history;
* `src/services/deviceDiscovery.js` — the `mergeDevice` record normalizer;
* `src/parsers/arpParser.js` and the netdiscover parser — line parsers for
  the external scan tools.

JavaScript objects are modelled with `Option` fields: `none` stands for a
key that is absent (or `null` where the two are indistinguishable to the
code under study).  Machine timestamps (`Date.now()`) are `Int`
milliseconds; ISO time strings and alert ids, which the code produces from
the ambient clock and a random source, are threaded as explicit `String`
parameters.  Network I/O (running nmap) happens outside the functions we
model, so scan output arrives as an already-parsed argument.
-/

namespace NetScan

/-! ## JavaScript value helpers -/

/-- Truthiness of a JS string value: `undefined`/`null`/`""` are falsy. -/
def jsTruthy : Option String → Bool
  | none => false
  | some s => !(s == "")

/-- The JS `a || b` operator on string values. -/
def jsOr (a b : Option String) : Option String :=
  if jsTruthy a then a else b

/-- The JS `a || d` operator when the code immediately uses the result as a
plain string (the default `d` is a truthy literal in every use site). -/
def jsOrD (a : Option String) (d : String) : String :=
  match a with
  | none => d
  | some s => if s == "" then d else s

/-- The JS `a || b` operator on numeric values (`0` is falsy). -/
def jsOrNat (a b : Option Nat) : Option Nat :=
  match a with
  | some n => if n == 0 then b else some n
  | none => b

/-- Key-override semantics of the JS object spread `{...e, ...n}` for one
key: the incoming value wins exactly when the key is present on `n`. -/
def jsSpread {α : Type} (n e : Option α) : Option α :=
  match n with
  | some v => some v
  | none => e

/-- Lower-casing used for the JS `toLowerCase()` calls (ASCII suffices for
the signature lists in the source). -/
def lowerChars (s : String) : List Char :=
  s.data.map Char.toLower

/-- The JS `hay.includes(needle)` substring test, on character lists. -/
def containsSub (needle : List Char) : List Char → Bool
  | [] => needle.isEmpty
  | c :: rest => needle.isPrefixOf (c :: rest) || containsSub needle rest

/-! ## Data model -/

/-- A port entry as it appears in parsed scan output.  Nmap-parsed entries
carry `protocol`, `port`, `state`, `service`; other producers may use
`portid` or add `version`, hence every key is optional. -/
structure PortInfo where
  port : Option Nat := none
  portid : Option Nat := none
  protocol : Option String := none
  service : Option String := none
  version : Option String := none
  state : Option String := none
deriving DecidableEq, Repr

/-- The serviceInfo object built by `identifyServices`. -/
structure ServiceInfo where
  port : Option Nat
  protocol : String
  service : String
  version : String
  state : String
  isSuspicious : Bool
  reason : String
deriving DecidableEq, Repr

/-- Return value of `identifyServices`. -/
structure ServicesInfo where
  services : List ServiceInfo
  suspiciousServices : List ServiceInfo
deriving DecidableEq, Repr

/-- A detected attack object from `detectAttackTypes`.  The `ports` and
`services` keys exist only on some attack kinds; they default to empty. -/
structure Attack where
  type : String
  severity : String
  description : String
  ports : List Nat := []
  services : List ServiceInfo := []
  timestamp : String
deriving DecidableEq, Repr

/-- An alert record as built by `generateAlert`; `acknowledgedAt` is absent
until `acknowledgeAlert` sets it. -/
structure Alert where
  id : String
  ip : String
  timestamp : String
  attacks : List Attack
  suspiciousServices : List ServiceInfo
  severity : String
  acknowledged : Bool
  acknowledgedAt : Option String := none
deriving DecidableEq, Repr

/-- A device object (observation or stored record).  All producers set
`ip`; every other key may be missing depending on the producing parser. -/
structure Device where
  ip : String
  mac : Option String := none
  vendor : Option String := none
  hostname : Option String := none
  status : Option String := none
  ports : Option (List PortInfo) := none
  lastSeen : Option String := none
  discoveryMethod : Option String := none
  packetCount : Option Nat := none
  packetLength : Option Nat := none
deriving DecidableEq, Repr

/-! ## Device Record Normalizer (`deviceDiscovery.js`, `mergeDevice`) -/

/-- `mergeDevice` from `deviceDiscovery.js`.  With an existing record it
evaluates `newDevice.ports.length`, which raises a `TypeError` when the
incoming object has no `ports` key; we surface that as `Except.error`.
Spread keys (`status`, `discoveryMethod`, netdiscover packet fields) follow
`{...existingDevice, ...newDevice}`; `mac`, `vendor`, `hostname`, `ports`
and `lastSeen` are the explicitly merged keys. -/
def mergeDevice (existingDevice : Option Device) (newDevice : Device) :
    Except String Device :=
  match existingDevice with
  | none => Except.ok newDevice
  | some e =>
    match newDevice.ports with
    | none => Except.error "TypeError"
    | some nports =>
      Except.ok {
        ip := newDevice.ip
        mac := jsOr newDevice.mac e.mac
        vendor := jsOr newDevice.vendor e.vendor
        hostname := jsOr newDevice.hostname e.hostname
        status := jsSpread newDevice.status e.status
        ports := if nports.length > 0 then some nports else e.ports
        lastSeen := newDevice.lastSeen
        discoveryMethod := jsSpread newDevice.discoveryMethod e.discoveryMethod
        packetCount := jsSpread newDevice.packetCount e.packetCount
        packetLength := jsSpread newDevice.packetLength e.packetLength }

/-! ## Access Control Registry (`portMonitoring.js`) -/

/-- JS `Set.add`: no-op when the element is already present. -/
def setAdd (s : List String) (ip : String) : List String :=
  if s.contains ip then s else s ++ [ip]

/-- JS `Set.delete`. -/
def setDelete (s : List String) (ip : String) : List String :=
  s.filter (fun x => !(x == ip))

/-- The whitelist/blacklist pair held by the port monitoring module. -/
structure AccessState where
  whitelist : List String
  blacklist : List String
deriving DecidableEq, Repr

def addToWhitelist (st : AccessState) (ip : String) : AccessState :=
  { whitelist := setAdd st.whitelist ip, blacklist := setDelete st.blacklist ip }

def removeFromWhitelist (st : AccessState) (ip : String) : AccessState :=
  { st with whitelist := setDelete st.whitelist ip }

def isWhitelisted (st : AccessState) (ip : String) : Bool :=
  st.whitelist.contains ip

def addToBlacklist (st : AccessState) (ip : String) : AccessState :=
  { blacklist := setAdd st.blacklist ip, whitelist := setDelete st.whitelist ip }

def removeFromBlacklist (st : AccessState) (ip : String) : AccessState :=
  { st with blacklist := setDelete st.blacklist ip }

def isBlacklisted (st : AccessState) (ip : String) : Bool :=
  st.blacklist.contains ip

/-- The exported registry operations, as an event alphabet. -/
inductive AccessOp where
  | allow (ip : String)
  | deny (ip : String)
  | unallow (ip : String)
  | undeny (ip : String)
deriving DecidableEq, Repr

def applyAccessOp (st : AccessState) (op : AccessOp) : AccessState :=
  match op with
  | .allow ip => addToWhitelist st ip
  | .deny ip => addToBlacklist st ip
  | .unallow ip => removeFromWhitelist st ip
  | .undeny ip => removeFromBlacklist st ip

/-- Run a call sequence from the module's initial (empty) sets. -/
def runAccessOps (ops : List AccessOp) : AccessState :=
  ops.foldl applyAccessOp { whitelist := [], blacklist := [] }

/-! ## Service Classifier (`identifyServices`) -/

/-- `ATTACK_PATTERNS.suspiciousPorts`. -/
def suspiciousPorts : List Nat := [21, 23, 135, 139, 445, 3389, 5900]

/-- `ATTACK_PATTERNS.commonAttackServices`. -/
def commonAttackServices : List String :=
  ["vsftpd 2.3.4", "ProFTPD 1.3.3c", "Apache 2.2.8"]

/-- `ATTACK_PATTERNS.portScan.threshold`. -/
def portScanThreshold : Nat := 10

/-- `ATTACK_PATTERNS.portScan.timeWindow` (milliseconds). -/
def portScanTimeWindow : Int := 60000

/-- `ATTACK_PATTERNS.suspiciousPorts.includes(p)` where `p` may be the JS
`undefined` when both `port` and `portid` are missing. -/
def portIsSuspicious : Option Nat → Bool
  | some p => suspiciousPorts.contains p
  | none => false

/-- Version check of `identifyServices`: the reported version string,
lower-cased, contains one of the vulnerable signatures, lower-cased. -/
def vulnMatch (version : String) : Bool :=
  commonAttackServices.any (fun v => containsSub (lowerChars v) (lowerChars version))

/-- The final state of the per-port `serviceInfo` object.  In the source
the object is pushed into `suspiciousServices` by reference and is mutated
afterwards, so the list entry always shows the last reason written: the
version match overwrites the port-membership reason. -/
def classifyPort (portInfo : PortInfo) : ServiceInfo :=
  let base : ServiceInfo := {
    port := jsOrNat portInfo.port portInfo.portid
    protocol := jsOrD portInfo.protocol "tcp"
    service := jsOrD portInfo.service "unknown"
    version := jsOrD portInfo.version ""
    state := jsOrD portInfo.state "open"
    isSuspicious := false
    reason := "" }
  let afterPort :=
    if portIsSuspicious base.port then
      { base with isSuspicious := true, reason := "Commonly exploited port" }
    else base
  if vulnMatch afterPort.version then
    { afterPort with isSuspicious := true, reason := "Known vulnerable version" }
  else afterPort

/-- The per-port push into `suspiciousServices`: exactly one push happens
when either rule fires (the reference-equality `includes` guard in the
source prevents a second push of the same object). -/
def suspEntry (portInfo : PortInfo) : Option ServiceInfo :=
  let s := classifyPort portInfo
  if s.isSuspicious then some s else none

/-- `identifyServices` from `portMonitoring.js`. -/
def identifyServices (device : Device) : ServicesInfo :=
  match device.ports with
  | none => { services := [], suspiciousServices := [] }
  | some l =>
    if l.length = 0 then { services := [], suspiciousServices := [] }
    else { services := l.map classifyPort, suspiciousServices := l.filterMap suspEntry }

/-! ## Scan Activity Tracker -/

/-- Return value of `getScanFrequency`. -/
structure ScanFreq where
  count : Nat
  timeWindow : Int
deriving DecidableEq, Repr

/-- The per-IP body of `updateScanHistory`: push `now`, then keep only
timestamps with `now - timestamp < timeWindow`. -/
def updateScanHistory (now : Int) (history : List Int) : List Int :=
  (history ++ [now]).filter (fun timestamp => now - timestamp < portScanTimeWindow)

/-- JS `Map.set`: replace the value of an existing key, else append. -/
def mapSet : List (String × List Int) → String → List Int → List (String × List Int)
  | [], k, v => [(k, v)]
  | (k', v') :: rest, k, v =>
    if k' == k then (k, v) :: rest else (k', v') :: mapSet rest k v

/-- `updateScanHistory` at the level of the `scanHistory` map. -/
def recordScan (now : Int) (sh : List (String × List Int)) (ip : String) :
    List (String × List Int) :=
  mapSet sh ip (updateScanHistory now ((sh.lookup ip).getD []))

/-- `getScanFrequency`: the length of whatever list is currently stored;
no pruning happens here. -/
def getScanFrequency (sh : List (String × List Int)) (ip : String) : ScanFreq :=
  { count := ((sh.lookup ip).getD []).length, timeWindow := portScanTimeWindow }

/-! ## Attack Pattern Detector (`detectAttackTypes`) -/

/-- `detectAttackTypes` from `portMonitoring.js`.  `nowIso` stands for the
`new Date().toISOString()` calls; `sh` is the module's `scanHistory`. -/
def detectAttackTypes (nowIso : String) (sh : List (String × List Int))
    (ip : String) (device : Device) (servicesInfo : ServicesInfo) : List Attack :=
  let scanFrequency := getScanFrequency sh ip
  let a1 : List Attack :=
    if scanFrequency.count > portScanThreshold then
      [{ type := "Port Scan Attack", severity := "high",
         description := "Device scanned " ++ toString scanFrequency.count ++
           " times in " ++ toString scanFrequency.timeWindow ++ "ms",
         timestamp := nowIso }]
    else []
  let openPorts := device.ports.getD []
  let openSuspiciousPorts :=
    openPorts.filter (fun p => portIsSuspicious (jsOrNat p.port p.portid))
  let a2 : List Attack :=
    if openSuspiciousPorts.length > 0 then
      a1 ++ [{ type := "Suspicious Ports Open", severity := "medium",
               description := "Found " ++ toString openSuspiciousPorts.length ++
                 " commonly exploited ports open",
               ports := openSuspiciousPorts.filterMap (fun p => jsOrNat p.port p.portid),
               timestamp := nowIso }]
    else a1
  let a3 : List Attack :=
    if servicesInfo.suspiciousServices.length > 0 then
      a2 ++ [{ type := "Vulnerable Services", severity := "high",
               description := "Detected services with known vulnerabilities",
               services := servicesInfo.suspiciousServices,
               timestamp := nowIso }]
    else a2
  if openPorts.length > 50 then
    a3 ++ [{ type := "Unusual Port Activity", severity := "medium",
             description := "Abnormally high number of open ports (" ++
               toString openPorts.length ++ ")",
             timestamp := nowIso }]
  else a3

/-! ## Alert Manager -/

/-- `calculateSeverity` from `portMonitoring.js`. -/
def calculateSeverity (attacks : List Attack) : String :=
  let highSeverity := (attacks.filter (fun a => a.severity == "high")).length
  let mediumSeverity := (attacks.filter (fun a => a.severity == "medium")).length
  if highSeverity > 0 then "high"
  else if mediumSeverity > 1 then "high"
  else if mediumSeverity > 0 then "medium"
  else "low"

/-- `generateAlert`, with the generated id and the clock reading passed in
(`alert_${Date.now()}_${random}` and `toISOString` in the source). -/
def generateAlert (alertId nowIso : String) (ip : String)
    (attacks : List Attack) (servicesInfo : ServicesInfo) : Alert :=
  { id := alertId, ip := ip, timestamp := nowIso, attacks := attacks,
    suspiciousServices := servicesInfo.suspiciousServices,
    severity := calculateSeverity attacks, acknowledged := false,
    acknowledgedAt := none }

/-- `getDeviceAlerts`. -/
def getDeviceAlerts (ip : String) (alerts : List Alert) : List Alert :=
  alerts.filter (fun a => a.ip == ip)

/-- `acknowledgeAlert`: `alerts.find` locates the first alert with the id
and mutates it, unconditionally overwriting `acknowledgedAt` with the
current clock reading; a missing id is a silent no-op. -/
def acknowledgeAlert (nowIso : String) (alertId : String) :
    List Alert → List Alert
  | [] => []
  | a :: rest =>
    if a.id == alertId then
      { a with acknowledged := true, acknowledgedAt := some nowIso } :: rest
    else a :: acknowledgeAlert nowIso alertId rest

/-! ## Port monitoring state and scan dispatch -/

/-- The mutable module-level state touched by the port monitoring paths.
`devices` is Person 1's device store (`discoveredDevices`), which the port
monitoring scan path never writes. -/
structure MonState where
  devices : List (String × Device)
  alerts : List Alert
  scanHistory : List (String × List Int)
  access : AccessState
deriving DecidableEq, Repr

/-- The operator-facing deny command (`addToBlacklist`) on the state. -/
def denyIp (st : MonState) (ip : String) : MonState :=
  { st with access := addToBlacklist st.access ip }

/-- The result object built by `scanDevicePorts`; `device` holds the keys
spread from the parsed device info. -/
structure ScanResult where
  device : Device
  scanType : String
  totalPorts : Nat
  services : List ServiceInfo
  suspiciousServices : List ServiceInfo
  detectedAttacks : List Attack
  isWhitelisted : Bool
  isBlacklisted : Bool
  alerts : List Alert
  lastScanned : String
deriving DecidableEq, Repr

/-- `scanDevicePorts` from `portMonitoring.js`.  The nmap run and its
parse are the external boundary: `parsedDevices` is the value of
`parseNmapOutput(nmapOutput)`.  A thrown error leaves the module state as
it was, which the pair return type makes explicit. -/
def scanDevicePorts (nowIso alertId : String) (now : Int)
    (parsedDevices : List Device) (st : MonState) (ip : String)
    (scanType : String) : MonState × Except String ScanResult :=
  if isBlacklisted st.access ip then
    (st, Except.error "Device is blacklisted")
  else
    match parsedDevices.head? with
    | none => (st, Except.error "No device information returned from scan")
    | some deviceInfo =>
      let servicesInfo := identifyServices deviceInfo
      let detectedAttacks := detectAttackTypes nowIso st.scanHistory ip deviceInfo servicesInfo
      let st1 :=
        if detectedAttacks.length > 0 || servicesInfo.suspiciousServices.length > 0 then
          { st with alerts :=
              st.alerts ++ [generateAlert alertId nowIso ip detectedAttacks servicesInfo] }
        else st
      let st2 := { st1 with scanHistory := recordScan now st1.scanHistory ip }
      let wl := isWhitelisted st2.access ip
      let bl := isBlacklisted st2.access ip
      let result : ScanResult := {
        device := deviceInfo
        scanType := scanType
        totalPorts := (deviceInfo.ports.getD []).length
        services := servicesInfo.services
        suspiciousServices := servicesInfo.suspiciousServices
        detectedAttacks := detectedAttacks
        isWhitelisted := wl
        isBlacklisted := bl
        alerts := getDeviceAlerts ip st2.alerts
        lastScanned := nowIso }
      (st2, Except.ok result)

/-- One iteration of the `scanMultipleDevices` loop.  A blacklisted device
is skipped before anything runs (the `continue` branch); otherwise the
scan's result or error message is appended.  `ip` is `device.ip || device`
for the batch entry. -/
def batchStep (nowIso alertId : String) (now : Int)
    (parsedOf : String → List Device) (scanType : String)
    (acc : MonState × List ScanResult × List (String × String)) (ip : String) :
    MonState × List ScanResult × List (String × String) :=
  let (st, results, errors) := acc
  if isBlacklisted st.access ip then acc
  else
    match scanDevicePorts nowIso alertId now (parsedOf ip) st ip scanType with
    | (st', Except.ok r) => (st', results ++ [r], errors)
    | (st', Except.error e) => (st', results, errors ++ [(ip, e)])

/-- Result object of `scanMultipleDevices`. -/
structure BatchResult where
  timestamp : String
  totalDevices : Nat
  scannedDevices : Nat
  results : List ScanResult
  errors : List (String × String)
deriving DecidableEq, Repr

/-- `scanMultipleDevices`, folding the loop body over the batch. -/
def scanMultipleDevices (nowIso alertId : String) (now : Int)
    (parsedOf : String → List Device) (scanType : String)
    (ips : List String) (st : MonState) : MonState × BatchResult :=
  let acc := ips.foldl (batchStep nowIso alertId now parsedOf scanType) (st, [], [])
  (acc.1, { timestamp := nowIso, totalDevices := ips.length,
            scannedDevices := acc.2.1.length, results := acc.2.1,
            errors := acc.2.2 })

/-! ## Scan-tool output parsers (`arpParser.js`, netdiscover parser)

The device regexes are anchored and their adjacent pieces use disjoint
character classes, so greedy matching with no backtracking is exact:
digits never match a dot or whitespace, whitespace never matches a MAC
character.  The JS character class shorthands are approximated over the
ASCII range the tool output uses. -/

/-- JS whitespace class for the source's uses (space, tab, CR, LF). -/
def isWsCh (c : Char) : Bool := c.isWhitespace

/-- The MAC character class of the device regexes. -/
def isMacCh (c : Char) : Bool :=
  c.isDigit || ('a' ≤ c && c ≤ 'f') || ('A' ≤ c && c ≤ 'F') || c == ':'

/-- Characters the un-flagged JS dot refuses to match. -/
def isLineTermCh (c : Char) : Bool := c == '\n' || c == '\r'

/-- Matches one dotted-quad octet: a maximal digit run of length 1 to 3
(a longer run cannot match because the following pattern piece excludes
digits, so backtracking cannot rescue it). -/
def matchOctet (l : List Char) : Option (List Char × List Char) :=
  let ds := l.takeWhile Char.isDigit
  if ds.length ≥ 1 && ds.length ≤ 3 then some (ds, l.dropWhile Char.isDigit)
  else none

def expectChar (c : Char) : List Char → Option (List Char)
  | x :: rest => if x == c then some rest else none
  | [] => none

/-- The dotted-quad group of the device regexes, returning the matched
characters and the remainder. -/
def matchIp (l : List Char) : Option (List Char × List Char) := do
  let (d1, r1) ← matchOctet l
  let r2 ← expectChar '.' r1
  let (d2, r3) ← matchOctet r2
  let r4 ← expectChar '.' r3
  let (d3, r5) ← matchOctet r4
  let r6 ← expectChar '.' r5
  let (d4, r7) ← matchOctet r6
  some (d1 ++ '.' :: d2 ++ '.' :: d3 ++ '.' :: d4, r7)

/-- One-or-more whitespace. -/
def matchWs (l : List Char) : Option (List Char) :=
  if (l.takeWhile isWsCh).length ≥ 1 then some (l.dropWhile isWsCh) else none

/-- Exactly 17 MAC-class characters. -/
def matchMac (l : List Char) : Option (List Char × List Char) :=
  let mac := l.take 17
  if mac.length == 17 && mac.all isMacCh then some (mac, l.drop 17) else none

/-- One-or-more digits (the netdiscover count and length columns). -/
def matchNum (l : List Char) : Option (List Char × List Char) :=
  let ds := l.takeWhile Char.isDigit
  if ds.length ≥ 1 then some (ds, l.dropWhile Char.isDigit) else none

/-- The trailing anchored group: the JS dot cannot cross a remaining line
terminator (lines were split on LF, so only a stray CR can be left). -/
def matchRest (l : List Char) : Option (List Char) :=
  if l.any isLineTermCh then none else some l

/-- The arp-scan device-line regex. -/
def matchArpLine (line : List Char) :
    Option (List Char × List Char × List Char) := do
  let (ipCs, r1) ← matchIp line
  let r2 ← matchWs r1
  let (macCs, r3) ← matchMac r2
  let r4 ← matchWs r3
  let rest ← matchRest r4
  some (ipCs, macCs, rest)

/-- JS `String.trim` on the captured vendor text. -/
def jsTrim (l : List Char) : List Char :=
  ((l.dropWhile isWsCh).reverse.dropWhile isWsCh).reverse

/-- `parseInt` on an all-digit capture. -/
def digitsToNat (ds : List Char) : Nat :=
  ds.foldl (fun n c => n * 10 + (c.toNat - '0'.toNat)) 0

/-- `parseArpOutput` from `arpParser.js`.  `nowIso` is the shared
`toISOString` reading.  The constructed device object has no `ports`
key. -/
def parseArpOutput (nowIso : String) (output : String) : List Device :=
  (output.data.splitOn '\n').filterMap (fun lineCs =>
    match matchArpLine lineCs with
    | none => none
    | some (ipCs, macCs, rest) =>
      let vendorTrim := String.mk (jsTrim rest)
      some {
        ip := String.mk ipCs
        mac := some (String.mk (macCs.map Char.toUpper))
        vendor := some (if vendorTrim == "" then "Unknown" else vendorTrim)
        hostname := none
        status := some "up"
        discoveryMethod := some "arp-scan"
        lastSeen := some nowIso })

/-- The netdiscover device-line regex (leading optional whitespace, then
ip, mac, packet count, packet length, vendor text). -/
def matchNetdiscoverLine (line : List Char) :
    Option (List Char × List Char × List Char × List Char × List Char) := do
  let r0 := line.dropWhile isWsCh
  let (ipCs, r1) ← matchIp r0
  let r2 ← matchWs r1
  let (macCs, r3) ← matchMac r2
  let r4 ← matchWs r3
  let (cntCs, r5) ← matchNum r4
  let r6 ← matchWs r5
  let (lenCs, r7) ← matchNum r6
  let r8 ← matchWs r7
  let rest ← matchRest r8
  some (ipCs, macCs, cntCs, lenCs, rest)

/-- `parseNetdiscoverOutput`.  The constructed device object has no
`ports` key either. -/
def parseNetdiscoverOutput (nowIso : String) (output : String) : List Device :=
  (output.data.splitOn '\n').filterMap (fun lineCs =>
    match matchNetdiscoverLine lineCs with
    | none => none
    | some (ipCs, macCs, cntCs, lenCs, rest) =>
      let vendorTrim := String.mk (jsTrim rest)
      some {
        ip := String.mk ipCs
        mac := some (String.mk (macCs.map Char.toUpper))
        packetCount := some (digitsToNat cntCs)
        packetLength := some (digitsToNat lenCs)
        vendor := some (if vendorTrim == "" then "Unknown" else vendorTrim)
        hostname := none
        status := some "up"
        discoveryMethod := some "netdiscover"
        lastSeen := some nowIso })

/-! ## Helper lemmas -/

lemma contains_iff {l : List String} {x : String} : l.contains x = true ↔ x ∈ l := by
  simp [List.contains, List.elem_iff]

lemma mem_setAdd {s : List String} {a x : String} :
    x ∈ setAdd s a ↔ x ∈ s ∨ x = a := by
  unfold setAdd
  split
  · next h =>
    have ha : a ∈ s := contains_iff.mp h
    constructor
    · exact Or.inl
    · rintro (hx | rfl)
      · exact hx
      · exact ha
  · simp [List.mem_append]

lemma mem_setDelete {s : List String} {a x : String} :
    x ∈ setDelete s a ↔ x ∈ s ∧ x ≠ a := by
  simp [setDelete]

/-- The mutual-exclusion invariant of the Access Control Registry. -/
def accessInv (st : AccessState) : Prop :=
  ∀ x, ¬(x ∈ st.whitelist ∧ x ∈ st.blacklist)

lemma accessInv_init : accessInv { whitelist := [], blacklist := [] } := by
  rintro x ⟨hx, -⟩
  simp at hx

lemma accessInv_apply {st : AccessState} (op : AccessOp) (h : accessInv st) :
    accessInv (applyAccessOp st op) := by
  cases op with
  | allow ip =>
    rintro x ⟨hw, hb⟩
    simp only [applyAccessOp, addToWhitelist, mem_setAdd, mem_setDelete] at hw hb
    rcases hw with hw | rfl
    · exact h x ⟨hw, hb.1⟩
    · exact hb.2 rfl
  | deny ip =>
    rintro x ⟨hw, hb⟩
    simp only [applyAccessOp, addToBlacklist, mem_setAdd, mem_setDelete] at hw hb
    rcases hb with hb | rfl
    · exact h x ⟨hw.1, hb⟩
    · exact hw.2 rfl
  | unallow ip =>
    rintro x ⟨hw, hb⟩
    simp only [applyAccessOp, removeFromWhitelist, mem_setDelete] at hw hb
    exact h x ⟨hw.1, hb⟩
  | undeny ip =>
    rintro x ⟨hw, hb⟩
    simp only [applyAccessOp, removeFromBlacklist, mem_setDelete] at hw hb
    exact h x ⟨hw, hb.1⟩

lemma accessInv_fold (ops : List AccessOp) :
    ∀ st, accessInv st → accessInv (ops.foldl applyAccessOp st) := by
  induction ops with
  | nil => exact fun st h => h
  | cons op rest ih => exact fun st h => ih _ (accessInv_apply op h)

lemma isBlacklisted_denyIp (st : MonState) (ip : String) :
    isBlacklisted (denyIp st ip).access ip = true := by
  simp only [denyIp, addToBlacklist, isBlacklisted]
  exact contains_iff.mpr (mem_setAdd.mpr (Or.inr rfl))

/-! ## Claims -/

/-- C2: under every finite sequence of allow/deny/removal calls from the
initial empty sets, no IP is ever a member of both the whitelist and the
blacklist, because adding to one set removes the IP from the other. -/
theorem c2_mutual_exclusion (ops : List AccessOp) (ip : String) :
    (isWhitelisted (runAccessOps ops) ip && isBlacklisted (runAccessOps ops) ip) = false := by
  have h := accessInv_fold ops _ accessInv_init ip
  cases hw : isWhitelisted (runAccessOps ops) ip with
  | false => rfl
  | true =>
    cases hb : isBlacklisted (runAccessOps ops) ip with
    | false => rfl
    | true =>
      exfalso
      simp only [isWhitelisted] at hw
      simp only [isBlacklisted] at hb
      exact h ⟨contains_iff.mp hw, contains_iff.mp hb⟩

/-- C1: once an IP has been denied (`addToBlacklist`), a scan dispatch on
it fails with the device-denied error and the module state — device store,
alerts, scan history — is returned unchanged; the same holds in any state
where the IP tests blacklisted, and the batch-scan loop body skips such an
IP leaving its accumulator untouched. -/
theorem c1_denied_gate (st : MonState) (ip : String)
    (nowIso alertId scanType : String) (now : Int) (parsed : List Device)
    (results : List ScanResult) (errors : List (String × String)) :
    scanDevicePorts nowIso alertId now parsed (denyIp st ip) ip scanType =
      (denyIp st ip, Except.error "Device is blacklisted") ∧
    (∀ st3 : MonState, isBlacklisted st3.access ip = true →
      scanDevicePorts nowIso alertId now parsed st3 ip scanType =
        (st3, Except.error "Device is blacklisted") ∧
      batchStep nowIso alertId now (fun _ => parsed) scanType (st3, results, errors) ip =
        (st3, results, errors)) := by
  constructor
  · simp [scanDevicePorts, isBlacklisted_denyIp]
  · intro st3 h
    constructor
    · simp [scanDevicePorts, h]
    · simp [batchStep, h]

/-- Initial port-monitoring module state (all stores empty). -/
def st0 : MonState :=
  { devices := [], alerts := [], scanHistory := [],
    access := { whitelist := [], blacklist := [] } }

/-- Witness for C1 at the spec's concrete example IP. -/
theorem c1_denied_gate_witness :
    scanDevicePorts "T" "id" 0 [] (denyIp st0 "10.0.0.5") "10.0.0.5" "quick" =
      (denyIp st0 "10.0.0.5", Except.error "Device is blacklisted") ∧
    (scanDevicePorts "T" "id" 0 [] (denyIp st0 "10.0.0.5") "10.0.0.5" "quick" =
      (denyIp st0 "10.0.0.5", Except.error "Device is blacklisted") ∧
     batchStep "T" "id" 0 (fun _ => []) "quick" (denyIp st0 "10.0.0.5", [], []) "10.0.0.5" =
      (denyIp st0 "10.0.0.5", [], [])) :=
  ⟨(c1_denied_gate st0 "10.0.0.5" "T" "id" "quick" 0 [] [] []).1,
   (c1_denied_gate st0 "10.0.0.5" "T" "id" "quick" 0 [] [] []).2
     (denyIp st0 "10.0.0.5") (by decide)⟩

/-- The alert-severity rule as the specification words it: high if at
least one finding is high, else high if at least two findings are medium,
else medium if at least one is medium, else low. -/
def severitySpecRule (findings : List Attack) : String :=
  if findings.any (fun a => a.severity == "high") then "high"
  else if 2 ≤ findings.countP (fun a => a.severity == "medium") then "high"
  else if 1 ≤ findings.countP (fun a => a.severity == "medium") then "medium"
  else "low"

lemma filter_length_pos_iff_any (l : List Attack) (p : Attack → Bool) :
    0 < (l.filter p).length ↔ l.any p = true := by
  rw [List.length_pos, List.any_eq_true]
  constructor
  · intro h
    obtain ⟨a, ha⟩ := List.exists_mem_of_ne_nil _ h
    exact ⟨a, (List.mem_filter.mp ha).1, (List.mem_filter.mp ha).2⟩
  · rintro ⟨a, ha, hp⟩
    exact List.ne_nil_of_mem (List.mem_filter.mpr ⟨ha, hp⟩)

/-- C3: `calculateSeverity` computes exactly the spec's severity rule, and
an alert generated from an empty findings list (with non-empty suspicious
services, which is what makes `generateAlert` reachable) has severity
low. -/
theorem c3_severity (findings : List Attack) (alertId nowIso ip : String)
    (servicesInfo : ServicesInfo)
    (hs : servicesInfo.suspiciousServices ≠ []) :
    calculateSeverity findings = severitySpecRule findings ∧
    (generateAlert alertId nowIso ip [] servicesInfo).severity = "low" := by
  refine ⟨?_, rfl⟩
  unfold calculateSeverity severitySpecRule
  rw [List.countP_eq_length_filter]
  by_cases h1 : findings.any (fun a => a.severity == "high") = true
  · rw [if_pos ((filter_length_pos_iff_any _ _).mpr h1), if_pos h1]
  · rw [if_neg (fun hc => h1 ((filter_length_pos_iff_any _ _).mp hc)), if_neg h1]
    by_cases h2 : 2 ≤ (findings.filter (fun a => a.severity == "medium")).length
    · rw [if_pos (by omega : 1 < (findings.filter (fun a => a.severity == "medium")).length),
          if_pos h2]
    · rw [if_neg (by omega : ¬1 < (findings.filter (fun a => a.severity == "medium")).length),
          if_neg h2]
      by_cases h3 : 1 ≤ (findings.filter (fun a => a.severity == "medium")).length
      · rw [if_pos (by omega : 0 < (findings.filter (fun a => a.severity == "medium")).length),
            if_pos h3]
      · rw [if_neg (by omega : ¬0 < (findings.filter (fun a => a.severity == "medium")).length),
            if_neg h3]

/-- A concrete suspicious-service finding (telnet on port 23). -/
def telnetFinding : ServiceInfo :=
  { port := some 23, protocol := "tcp", service := "telnet", version := "",
    state := "open", isSuspicious := true, reason := "Commonly exploited port" }

/-- Witness for C3. -/
theorem c3_severity_witness :
    calculateSeverity [] = severitySpecRule [] ∧
    (generateAlert "id" "T" "10.0.0.1" [] ⟨[telnetFinding], [telnetFinding]⟩).severity = "low" :=
  c3_severity [] "id" "T" "10.0.0.1" ⟨[telnetFinding], [telnetFinding]⟩ (by decide)

/-- A stored alert as used in the acknowledgement scenarios. -/
def alertA : Alert :=
  { id := "alert_1", ip := "10.0.0.1", timestamp := "t0", attacks := [],
    suspiciousServices := [], severity := "low", acknowledged := false }

/-- C6 counterexample: acknowledging the same existing id a second time at
a later clock reading overwrites `acknowledgedAt` with the second reading,
so it does not keep the value it had after the first call. -/
theorem c6_counterexample :
    ((acknowledgeAlert "t1" "alert_1" [alertA]).map Alert.acknowledgedAt = [some "t1"]) ∧
    ((acknowledgeAlert "t2" "alert_1" (acknowledgeAlert "t1" "alert_1" [alertA])).map
        Alert.acknowledgedAt = [some "t2"]) ∧
    some "t2" ≠ some "t1" := by decide

/-- C6 amended: a second acknowledge of the same id behaves like a single
acknowledge at the second call's clock reading (`acknowledged` stays true
but `acknowledgedAt` is refreshed, so it is unchanged only when the clock
reads the same); acknowledging an id that no alert carries is a silent
no-op that leaves the alert log unchanged. -/
theorem c6_acknowledge_amended (t1 t2 aid : String) (alerts : List Alert) :
    acknowledgeAlert t2 aid (acknowledgeAlert t1 aid alerts) =
      acknowledgeAlert t2 aid alerts ∧
    ((∀ a ∈ alerts, a.id ≠ aid) → acknowledgeAlert t1 aid alerts = alerts) := by
  constructor
  · induction alerts with
    | nil => rfl
    | cons a rest ih =>
      by_cases h : a.id == aid
      · simp only [acknowledgeAlert, h, if_pos]
      · simp only [acknowledgeAlert, h, if_neg, Bool.false_eq_true, not_false_iff, ih]
  · intro hnone
    induction alerts with
    | nil => rfl
    | cons a rest ih =>
      have ha : ¬(a.id == aid) = true := by
        simpa using hnone a (List.mem_cons_self a rest)
      simp only [acknowledgeAlert, if_neg ha]
      rw [ih (fun b hb => hnone b (List.mem_cons_of_mem a hb))]

/-- Witness for C6's amended claim. -/
theorem c6_acknowledge_amended_witness :
    acknowledgeAlert "t2" "alert_1" (acknowledgeAlert "t1" "alert_1" [alertA]) =
      acknowledgeAlert "t2" "alert_1" [alertA] ∧
    acknowledgeAlert "t1" "zzz" [alertA] = [alertA] :=
  ⟨(c6_acknowledge_amended "t1" "t2" "alert_1" [alertA]).1,
   (c6_acknowledge_amended "t1" "t2" "zzz" [alertA]).2 (by decide)⟩

lemma jsOr_self (a : Option String) : jsOr a a = a := by
  unfold jsOr
  split <;> rfl

lemma jsSpread_self {α : Type} (a : Option α) : jsSpread a a = a := by
  cases a <;> rfl

/-- C9: merge is idempotent on any observation that carries a ports array:
merging A into the record obtained by merging A into an empty store gives
that record back unchanged. -/
theorem c9_merge_idempotent (A : Device) (l : List PortInfo)
    (hA : A.ports = some l) :
    mergeDevice none A = Except.ok A ∧
    mergeDevice (some A) A = mergeDevice none A := by
  refine ⟨rfl, ?_⟩
  obtain ⟨ip, mac, vendor, hostname, status, ports, lastSeen, dm, pc, pl⟩ := A
  simp only at hA
  subst hA
  simp only [mergeDevice, jsOr_self, jsSpread_self]
  split <;> rfl

/-- Witness for C9. -/
theorem c9_merge_idempotent_witness :
    mergeDevice none { ip := "10.0.0.2", ports := some [] } =
      Except.ok { ip := "10.0.0.2", ports := some [] } ∧
    mergeDevice (some { ip := "10.0.0.2", ports := some [] })
        { ip := "10.0.0.2", ports := some [] } =
      mergeDevice none { ip := "10.0.0.2", ports := some [] } :=
  c9_merge_idempotent { ip := "10.0.0.2", ports := some [] } [] rfl

/-- A stored record as produced by an arp-scan discovery followed by a
port scan: non-empty ports, discoveryMethod present. -/
def c4R : Device :=
  { ip := "10.0.0.2", mac := some "AA:BB:CC:DD:EE:FF", vendor := some "Cisco Systems",
    status := some "up", ports := some [{ port := some 80 }],
    lastSeen := some "t0", discoveryMethod := some "arp-scan" }

/-- An nmap-parsed observation: ports key present but empty, and no
discoveryMethod key at all (the nmap parser never sets one). -/
def c4O : Device :=
  { ip := "10.0.0.2", hostname := some "printer.local", status := some "up",
    ports := some [], lastSeen := some "t1" }

/-- C4 counterexample: merging an nmap-parsed observation with empty ports
into an arp-discovered record leaves `discoveryMethod` at the existing
value `"arp-scan"` instead of taking the incoming value (the incoming
observation carries none, and the object spread keeps the existing key),
refuting "discoveryMethod always takes the incoming value". -/
theorem c4_counterexample :
    c4R.ports = some [{ port := some 80 }] ∧
    c4O.ports = some [] ∧
    c4O.discoveryMethod = none ∧
    (mergeDevice (some c4R) c4O).toOption.map Device.discoveryMethod =
      some (some "arp-scan") ∧
    some "arp-scan" ≠ (none : Option String) := by decide

/-- C4 amended: merging an empty-ports observation into a record with
non-empty ports keeps the record's ports; mac, vendor and hostname are
overwritten only by truthy (non-empty) incoming values; status and
lastSeen take the incoming value; discoveryMethod takes the incoming value
only when the observation carries the key, otherwise the existing value is
retained (nmap-parsed observations carry none). -/
theorem c4_merge_amended (R O : Device) (ps : List PortInfo)
    (hR : R.ports = some ps) (hne : ps ≠ []) (hO : O.ports = some []) :
    ∃ m, mergeDevice (some R) O = Except.ok m ∧
      m.ports = R.ports ∧
      (jsTruthy O.mac = true → m.mac = O.mac) ∧
      (jsTruthy O.mac = false → m.mac = R.mac) ∧
      (jsTruthy O.vendor = true → m.vendor = O.vendor) ∧
      (jsTruthy O.vendor = false → m.vendor = R.vendor) ∧
      (jsTruthy O.hostname = true → m.hostname = O.hostname) ∧
      (jsTruthy O.hostname = false → m.hostname = R.hostname) ∧
      m.status = jsSpread O.status R.status ∧
      m.lastSeen = O.lastSeen ∧
      m.discoveryMethod = jsSpread O.discoveryMethod R.discoveryMethod := by
  have hm : mergeDevice (some R) O = Except.ok
      { ip := O.ip, mac := jsOr O.mac R.mac, vendor := jsOr O.vendor R.vendor,
        hostname := jsOr O.hostname R.hostname, status := jsSpread O.status R.status,
        ports := R.ports, lastSeen := O.lastSeen,
        discoveryMethod := jsSpread O.discoveryMethod R.discoveryMethod,
        packetCount := jsSpread O.packetCount R.packetCount,
        packetLength := jsSpread O.packetLength R.packetLength } := by
    simp [mergeDevice, hO]
  refine ⟨_, hm, rfl, ?_, ?_, ?_, ?_, ?_, ?_, rfl, rfl, rfl⟩ <;>
    intro h <;> simp [jsOr, h]

/-- Witness for C4's amended claim. -/
theorem c4_merge_amended_witness :
    ∃ m, mergeDevice (some c4R) c4O = Except.ok m ∧
      m.ports = c4R.ports ∧
      (jsTruthy c4O.mac = true → m.mac = c4O.mac) ∧
      (jsTruthy c4O.mac = false → m.mac = c4R.mac) ∧
      (jsTruthy c4O.vendor = true → m.vendor = c4O.vendor) ∧
      (jsTruthy c4O.vendor = false → m.vendor = c4R.vendor) ∧
      (jsTruthy c4O.hostname = true → m.hostname = c4O.hostname) ∧
      (jsTruthy c4O.hostname = false → m.hostname = c4R.hostname) ∧
      m.status = jsSpread c4O.status c4R.status ∧
      m.lastSeen = c4O.lastSeen ∧
      m.discoveryMethod = jsSpread c4O.discoveryMethod c4R.discoveryMethod :=
  c4_merge_amended c4R c4O [{ port := some 80 }] rfl (by decide) rfl

/-- The spec's end-to-end device: telnet open on port 23, no version
information, so the only suspicious-service reason is the port rule. -/
def c5dev : Device :=
  { ip := "192.168.1.50", status := some "up",
    ports := some [{ port := some 23, protocol := some "tcp",
                     state := some "open", service := some "telnet" }] }

/-- C5 counterexample: a device whose only suspicious service was flagged
solely for port-number membership (reason "Commonly exploited port", no
version match anywhere) still makes `detectAttackTypes` produce a
"Vulnerable Services" finding — the code only tests that
`suspiciousServices` is non-empty and never inspects the reasons. -/
theorem c5_counterexample :
    ((identifyServices c5dev).suspiciousServices.all
        (fun s => !(s.reason == "Known vulnerable version"))) = true ∧
    0 < (identifyServices c5dev).suspiciousServices.length ∧
    ((detectAttackTypes "T" [] "192.168.1.50" c5dev (identifyServices c5dev)).any
        (fun a => a.type == "Vulnerable Services")) = true := by decide

/-- C5 amended: a "Vulnerable Services" finding (severity high) is
produced if and only if the classifier's suspiciousServices list is
non-empty, regardless of the reasons recorded on its entries; a
port-membership-only flag is already sufficient. -/
theorem c5_vulnerable_amended (nowIso : String) (sh : List (String × List Int))
    (ip : String) (device : Device) (servicesInfo : ServicesInfo) :
    (∃ a ∈ detectAttackTypes nowIso sh ip device servicesInfo,
        a.type = "Vulnerable Services") ↔
      servicesInfo.suspiciousServices ≠ [] := by
  by_cases hs : servicesInfo.suspiciousServices = []
  · refine iff_of_false ?_ (by simp [hs])
    rintro ⟨a, ha, hty⟩
    rw [detectAttackTypes] at ha
    simp only [hs, List.length_nil, gt_iff_lt, Nat.lt_irrefl, if_false] at ha
    split_ifs at ha <;>
      simp only [List.mem_append, List.mem_singleton, List.mem_cons,
        List.not_mem_nil, or_false, false_or] at ha <;>
      first
      | (rcases ha with (ha | ha) | ha <;> rw [ha] at hty <;> dsimp only at hty <;>
          exact absurd hty (by decide))
      | (rcases ha with ha | ha | ha <;> rw [ha] at hty <;> dsimp only at hty <;>
          exact absurd hty (by decide))
      | (rcases ha with ha | ha <;> rw [ha] at hty <;> dsimp only at hty <;>
          exact absurd hty (by decide))
      | (rw [ha] at hty; dsimp only at hty; exact absurd hty (by decide))
  · have hcond : servicesInfo.suspiciousServices.length > 0 := by
      cases h : servicesInfo.suspiciousServices with
      | nil => exact absurd h hs
      | cons a l => simp [h]
    refine iff_of_true ?_ hs
    rw [detectAttackTypes]
    simp only [if_pos hcond]
    split_ifs <;>
      exact ⟨{ type := "Vulnerable Services", severity := "high",
               description := "Detected services with known vulnerabilities",
               services := servicesInfo.suspiciousServices, timestamp := nowIso },
             by simp [List.mem_append], rfl⟩

/-- Iterated per-IP `updateScanHistory` over a sequence of clock
readings. -/
def runUpdates (ts : List Int) (history : List Int) : List Int :=
  ts.foldl (fun h t => updateScanHistory t h) history

/-- Iterated `recordScan` (scan-history bookkeeping of repeated
`scanDevicePorts` calls) over a sequence of clock readings. -/
def recordScans (ts : List Int) (sh : List (String × List Int)) (ip : String) :
    List (String × List Int) :=
  ts.foldl (fun s t => recordScan t s ip) sh

lemma lookup_mapSet_self (sh : List (String × List Int)) (k : String) (v : List Int) :
    (mapSet sh k v).lookup k = some v := by
  induction sh with
  | nil => simp [mapSet, List.lookup]
  | cons kv rest ih =>
    obtain ⟨k', v'⟩ := kv
    by_cases h : k' = k
    · subst h
      simp [mapSet, List.lookup]
    · have hb : (k' == k) = false := by simpa using h
      have hb' : (k == k') = false := by simpa using fun hc => h hc.symm
      simp [mapSet, hb, List.lookup, hb', ih]

lemma recordScans_lookup_of_some (ts : List Int) (ip : String) :
    ∀ sh h, sh.lookup ip = some h →
      (recordScans ts sh ip).lookup ip = some (runUpdates ts h) := by
  induction ts with
  | nil => exact fun sh h hsh => hsh
  | cons t ts ih =>
    intro sh h hsh
    have hstep : (recordScan t sh ip).lookup ip = some (updateScanHistory t h) := by
      unfold recordScan
      rw [hsh]
      exact lookup_mapSet_self _ _ _
    exact ih _ _ hstep

lemma updateScanHistory_keep (t : Int) (acc : List Int)
    (h : ∀ a ∈ acc, t - a < portScanTimeWindow) :
    updateScanHistory t acc = acc ++ [t] := by
  unfold updateScanHistory
  rw [List.filter_eq_self]
  intro a ha
  rcases List.mem_append.mp ha with ha | ha
  · exact decide_eq_true (h a ha)
  · rw [List.mem_singleton.mp ha]
    exact decide_eq_true (by norm_num [portScanTimeWindow])

lemma runUpdates_keep (ts : List Int) :
    ∀ acc, (∀ a ∈ acc, ∀ t ∈ ts, t - a < portScanTimeWindow) →
      (∀ a ∈ ts, ∀ b ∈ ts, a - b < portScanTimeWindow) →
      runUpdates ts acc = acc ++ ts := by
  induction ts with
  | nil => intro acc _ _; simp [runUpdates]
  | cons t ts ih =>
    intro acc h1 h2
    have hstep : updateScanHistory t acc = acc ++ [t] :=
      updateScanHistory_keep t acc (fun a ha => h1 a ha t (List.mem_cons_self t ts))
    have : runUpdates (t :: ts) acc = runUpdates ts (acc ++ [t]) := by
      show runUpdates ts (updateScanHistory t acc) = _
      rw [hstep]
    rw [this, ih (acc ++ [t]) ?_ ?_]
    · simp
    · intro a ha u hu
      rcases List.mem_append.mp ha with ha | ha
      · exact h1 a ha u (List.mem_cons_of_mem t hu)
      · rw [List.mem_singleton.mp ha]
        exact h2 u (List.mem_cons_of_mem t hu) t (List.mem_cons_self t ts)
    · exact fun a ha b hb =>
        h2 a (List.mem_cons_of_mem t ha) b (List.mem_cons_of_mem t hb)

/-- C7 counterexample: after eleven `recordScan` calls for an IP within
1000 ms, `getScanFrequency` reports count 11; once the 60 000 ms window
has elapsed with no further `recordScan` calls for that IP, the state is
untouched (pruning only happens inside `recordScan`), so the reported
count is still 11, not the 0 the claim states. -/
theorem c7_counterexample :
    (getScanFrequency
        (recordScans [0, 100, 200, 300, 400, 500, 600, 700, 800, 900, 1000] [] "10.0.0.9")
        "10.0.0.9").count = 11 ∧
    (getScanFrequency
        (recordScans [0, 100, 200, 300, 400, 500, 600, 700, 800, 900, 1000] [] "10.0.0.9")
        "10.0.0.9").count ≠ 0 := by decide

/-- C7 amended: `recordScan` appends the current time to the IP's list and
then drops entries older than the window, so any sequence of calls whose
mutual gaps stay below the window (such as 11 calls within 1000 ms) leaves
a count equal to the number of calls; the count stays at that value until
the next `recordScan` for the IP, because `getScanFrequency` only reads
the stored list; a `recordScan` issued after the window has elapsed prunes
every stale entry, leaving count 1 (never 0). -/
theorem c7_window_amended (ip : String) (sh : List (String × List Int))
    (ts : List Int) (tLate : Int)
    (hfresh : sh.lookup ip = none) (hne : ts ≠ [])
    (hgap : ∀ a ∈ ts, ∀ b ∈ ts, a - b < portScanTimeWindow)
    (hlate : ∀ t ∈ ts, portScanTimeWindow ≤ tLate - t) :
    (getScanFrequency (recordScans ts sh ip) ip).count = ts.length ∧
    (getScanFrequency (recordScan tLate (recordScans ts sh ip) ip) ip).count = 1 := by
  obtain ⟨t, ts', rfl⟩ := List.exists_cons_of_ne_nil hne
  have hstep : (recordScan t sh ip).lookup ip = some (updateScanHistory t []) := by
    unfold recordScan
    rw [hfresh]
    exact lookup_mapSet_self _ _ _
  have hlook : (recordScans (t :: ts') sh ip).lookup ip =
      some (runUpdates (t :: ts') []) :=
    recordScans_lookup_of_some ts' ip _ _ hstep
  have hkeep : runUpdates (t :: ts') [] = t :: ts' := by
    have := runUpdates_keep (t :: ts') [] (by intro a ha; exact absurd ha (List.not_mem_nil a)) hgap
    simpa using this
  constructor
  · simp [getScanFrequency, hlook, hkeep]
  · have hprune : updateScanHistory tLate (t :: ts') = [tLate] := by
      unfold updateScanHistory
      rw [List.filter_append, List.filter_eq_nil.mpr, List.nil_append]
      · simp [portScanTimeWindow]
      · intro a ha
        simp only [decide_eq_true_eq, not_lt]
        exact hlate a ha
    unfold recordScan
    rw [hlook]
    simp only [Option.getD_some, hkeep]
    simp [getScanFrequency, lookup_mapSet_self, hprune]

/-- Witness for C7's amended claim. -/
theorem c7_window_amended_witness :
    (getScanFrequency
        (recordScans [0, 100, 200, 300, 400, 500, 600, 700, 800, 900, 1000] [] "10.0.0.9")
        "10.0.0.9").count = 11 ∧
    (getScanFrequency
        (recordScan 100000
          (recordScans [0, 100, 200, 300, 400, 500, 600, 700, 800, 900, 1000] [] "10.0.0.9")
          "10.0.0.9")
        "10.0.0.9").count = 1 :=
  c7_window_amended "10.0.0.9" [] [0, 100, 200, 300, 400, 500, 600, 700, 800, 900, 1000]
    100000 (by decide) (by decide) (by decide) (by decide)

/-- C8: when a port observation is both in the suspicious-port set and has
a version matching a vulnerable signature, its classifier entry carries
the single reason "Known vulnerable version" (the version match wins) and
appears in `suspiciousServices`; each port observation contributes at most
one suspicious entry; an absent or empty port list yields empty results
rather than an error. -/
theorem c8_classifier (device : Device) (l : List PortInfo) (p : PortInfo)
    (hd : device.ports = some l) (hp : p ∈ l)
    (hport : portIsSuspicious (jsOrNat p.port p.portid) = true)
    (hver : vulnMatch (jsOrD p.version "") = true) :
    (classifyPort p).reason = "Known vulnerable version" ∧
    classifyPort p ∈ (identifyServices device).suspiciousServices ∧
    (identifyServices device).suspiciousServices.length ≤ l.length ∧
    (∀ d : Device, d.ports = none ∨ d.ports = some [] →
      identifyServices d = { services := [], suspiciousServices := [] }) := by
  have h1 : (classifyPort p).reason = "Known vulnerable version" := by
    simp [classifyPort, hport, hver]
  have hsusp : (classifyPort p).isSuspicious = true := by
    simp [classifyPort, hport, hver]
  have hentry : suspEntry p = some (classifyPort p) := by
    simp [suspEntry, hsusp]
  have hlen0 : ¬(l.length = 0) :=
    fun h => List.ne_nil_of_mem hp (List.length_eq_zero.mp h)
  have hid : identifyServices device =
      { services := l.map classifyPort, suspiciousServices := l.filterMap suspEntry } := by
    simp [identifyServices, hd, hlen0]
  refine ⟨h1, ?_, ?_, ?_⟩
  · rw [hid]
    exact List.mem_filterMap.mpr ⟨p, hp, hentry⟩
  · rw [hid]
    exact List.length_filterMap_le _ _
  · rintro d (hd' | hd') <;> simp [identifyServices, hd']

/-- A port observation matching both classifier rules: FTP on port 21
running the vulnerable vsftpd version. -/
def pBoth : PortInfo :=
  { port := some 21, protocol := some "tcp", state := some "open",
    service := some "ftp", version := some "vsFTPd 2.3.4" }

/-- Device carrying that port observation. -/
def c8dev : Device :=
  { ip := "10.0.0.3", status := some "up", ports := some [pBoth] }

/-- Witness for C8. -/
theorem c8_classifier_witness :
    (classifyPort pBoth).reason = "Known vulnerable version" ∧
    classifyPort pBoth ∈ (identifyServices c8dev).suspiciousServices ∧
    (identifyServices c8dev).suspiciousServices.length ≤ [pBoth].length ∧
    (∀ d : Device, d.ports = none ∨ d.ports = some [] →
      identifyServices d = { services := [], suspiciousServices := [] }) :=
  c8_classifier c8dev [pBoth] pBoth rfl (by decide) (by decide) (by decide)

/-- C10: every device constructed by the arp-scan or netdiscover parser
has no ports key, and merging any such observation into an existing record
raises the TypeError (the code reads `.length` of the missing array); the
merge into an existing record succeeds exactly when the incoming
observation carries a ports array. -/
theorem c10_merge_partiality (nowIso output : String) (d r o o2 : Device)
    (l : List PortInfo)
    (hd : d ∈ parseArpOutput nowIso output ∨ d ∈ parseNetdiscoverOutput nowIso output)
    (ho : o.ports = none) (ho2 : o2.ports = some l) :
    d.ports = none ∧
    mergeDevice (some r) o = Except.error "TypeError" ∧
    (mergeDevice (some r) o2).isOk = true := by
  refine ⟨?_, ?_, ?_⟩
  · rcases hd with h | h
    · obtain ⟨line, -, hsome⟩ := List.mem_filterMap.mp h
      cases hma : matchArpLine line with
      | none => rw [hma] at hsome; exact absurd hsome (by simp)
      | some g =>
        obtain ⟨ipCs, macCs, rest⟩ := g
        rw [hma] at hsome
        dsimp only at hsome
        rw [← Option.some.inj hsome]
    · obtain ⟨line, -, hsome⟩ := List.mem_filterMap.mp h
      cases hma : matchNetdiscoverLine line with
      | none => rw [hma] at hsome; exact absurd hsome (by simp)
      | some g =>
        obtain ⟨ipCs, macCs, cntCs, lenCs, rest⟩ := g
        rw [hma] at hsome
        dsimp only at hsome
        rw [← Option.some.inj hsome]
  · simp [mergeDevice, ho]
  · simp [mergeDevice, ho2, Except.isOk, Except.toBool]

/-- The device object the arp parser produces from the witness line. -/
def c10dev : Device :=
  { ip := "192.168.1.7", mac := some "AA:BB:CC:DD:EE:FF", vendor := some "Cisco Systems",
    status := some "up", lastSeen := some "T", discoveryMethod := some "arp-scan" }

/-- Witness for C10. -/
theorem c10_merge_partiality_witness :
    c10dev.ports = none ∧
    mergeDevice (some c4R) { ip := "10.0.0.2" } = Except.error "TypeError" ∧
    (mergeDevice (some c4R) { ip := "10.0.0.2", ports := some [] }).isOk = true :=
  c10_merge_partiality "T" "192.168.1.7 aa:bb:cc:dd:ee:ff Cisco Systems"
    c10dev c4R { ip := "10.0.0.2" } { ip := "10.0.0.2", ports := some [] } []
    (Or.inl (by decide)) rfl rfl

end NetScan
